import Mathlib

/-!
Shallow embedding of `src/main.py` (Threads Downloader API, FastAPI service).

The module has two routes: `GET /download` (normalize an input string to a
thread id, fetch an upstream HTML page with bounded retry, scrape it, and
answer JSON) and `GET /health` (constant liveness answer).  We embed:

* `extract_thread_id` — the identifier normalizer (regex `/post/([A-Za-z0-9_-]+)`
  search on URL-prefixed inputs, `str.strip()` otherwise);
* the parsed-HTML data model (`Element`) together with BeautifulSoup's
  `find`/`find_all` document-order descendant search by tag and CSS class;
* `fetch_url` — the tenacity-decorated fetch (3 attempts,
  `wait_exponential(multiplier=1, min=4, max=10)`);
* `download_thread` — the request handler, with the `try`/`except Exception`
  semantics made explicit (every exception raised inside the `try`, including
  the `HTTPException(404)`s, is replaced by `HTTPException(500)`);
* `health_check`, the module's global name table, and the
  `global_exception_handler` whose body references the unbound name
  `JSONResponse`.

Machine-level Python details that no claim depends on (logging, CORS setup,
the event loop) are omitted; everything with decision logic is embedded.
-/

/-- Python `str.isspace` on the ASCII whitespace characters that `str.strip()`
removes (the claims only involve these). -/
def isPyWs (c : Char) : Bool :=
  c = ' ' || c = '\t' || c = '\n' || c = '\r' || c = '\x0b' || c = '\x0c'

/-- Python `str.strip()` on a character list: drop leading and trailing
whitespace. -/
def pyStrip (s : List Char) : List Char :=
  ((s.dropWhile isPyWs).reverse.dropWhile isPyWs).reverse

/-- The character class `[A-Za-z0-9_-]` of `ID_PATTERN` (`main.py` line 53). -/
def isIdChar (c : Char) : Bool :=
  c.isAlpha || c.isDigit || c = '_' || c = '-'

/-- `url_or_id.startswith(("http://", "https://"))` (`main.py` line 82). -/
def urlPrefixed (s : List Char) : Bool :=
  "http://".toList.isPrefixOf s || "https://".toList.isPrefixOf s

/-- Does the regex `/post/([A-Za-z0-9_-]+)` match at the head of `s`?
The literal `/post/` must be a prefix and the following character must be in
the id class (`+` needs at least one). -/
def postMatchHere (s : List Char) : Bool :=
  "/post/".toList.isPrefixOf s && isIdChar ((s.drop 6).headD ' ')

/-- `ID_PATTERN.search`: scan left to right for the first position where
`/post/([A-Za-z0-9_-]+)` matches and return the (greedy, maximal) captured
group. `re.search` returns the leftmost match; the capture of `+` on a
character class is the maximal run. -/
def idPatternSearch : List Char → Option (List Char)
  | [] => none
  | c :: cs =>
    if postMatchHere (c :: cs) then some (((c :: cs).drop 6).takeWhile isIdChar)
    else idPatternSearch cs

/-- `extract_thread_id` (`main.py` lines 78–87).  Python returns `None` on
empty input and on URL-prefixed input without a pattern match; otherwise it
returns a string — possibly the empty string after `strip()`. `none` models
Python's `None`; `some s` models returning the string `s`. -/
def extract_thread_id (url_or_id : String) : Option String :=
  if url_or_id = "" then none
  else if urlPrefixed url_or_id.toList then
    (idPatternSearch url_or_id.toList).map fun l => String.mk l
  else some (String.mk (pyStrip url_or_id.toList))

/-- Python truthiness of `thread_id` as tested by `if not thread_id:` in the
handler (`main.py` line 102): `None` and `""` are falsy. -/
def threadIdTruthy : Option String → Bool
  | none => false
  | some s => s ≠ ""

/-! ## Parsed HTML model

`BeautifulSoup(content, "html.parser")` parses any text into an element tree
(parsing never fails), and the handler's behaviour depends only on that tree,
so the fetched body is modelled directly as its parse result: a list of root
elements.  An element carries its tag name, the (split) value of its `class`
attribute, its other attributes, its own directly-contained text, and its
child elements. -/

inductive Element : Type where
  | mk (tag : String) (classes : List String) (attrs : List (String × String))
       (ownText : String) (children : List Element)

def Element.tag : Element → String
  | .mk t _ _ _ _ => t

def Element.classes : Element → List String
  | .mk _ c _ _ _ => c

def Element.attrs : Element → List (String × String)
  | .mk _ _ a _ _ => a

def Element.ownText : Element → String
  | .mk _ _ _ s _ => s

def Element.children : Element → List Element
  | .mk _ _ _ _ ch => ch

/-! All strict descendants of an element / all nodes of a forest, in document
(pre-)order.  `find`/`find_all` on a BeautifulSoup tag search its descendants
recursively; on the soup object they search every element of the document. -/

mutual

def descendantsOf : Element → List Element
  | .mk _ _ _ _ ch => nodesIn ch

def nodesIn : List Element → List Element
  | [] => []
  | e :: es => (e :: descendantsOf e) ++ nodesIn es

end

/-! `tag.get_text()` / `tag.text`: concatenation of all contained strings in
document order. -/

mutual

def Element.getText : Element → String
  | .mk _ _ _ own ch => own ++ getTextIn ch

def getTextIn : List Element → String
  | [] => ""
  | e :: es => e.getText ++ getTextIn es

end

/-- BeautifulSoup tag/class matching.  A `class_` string filter on the
multi-valued `class` attribute matches when it equals one of the classes or
the whole space-joined attribute value (`class_="btn download__..."` relies on
the latter). -/
def matchesSel (tag : String) (cls : Option String) (e : Element) : Bool :=
  e.tag = tag &&
    match cls with
    | none => true
    | some c => e.classes.contains c || String.intercalate " " e.classes = c

/-- `tag.find_all(name, class_=...)`: all matching descendants in document
order. -/
def Element.findAll (e : Element) (tag : String) (cls : Option String) :
    List Element :=
  (descendantsOf e).filter (matchesSel tag cls)

/-- `tag.find(name, class_=...)`: first matching descendant, or `None`. -/
def Element.findFirst (e : Element) (tag : String) (cls : Option String) :
    Option Element :=
  (e.findAll tag cls).head?

/-- `soup.find(name, class_=...)` on the whole document. -/
def soupFind (doc : List Element) (tag : String) (cls : Option String) :
    Option Element :=
  ((nodesIn doc).filter (matchesSel tag cls)).head?

/-- `tag["key"]`: attribute lookup; `none` models the `KeyError` case. -/
def attrGet (e : Element) (k : String) : Option String :=
  (e.attrs.find? fun p => p.1 = k).map (·.2)

/-! ## Response model and exceptions -/

/-- The `ThreadResponse` pydantic model (`main.py` lines 56–62). -/
structure ThreadResponse where
  ok : Bool
  message : String
  avatar : Option String := none
  caption : Option String := none
  url : Option (List String) := none
  username : Option String := none
  deriving DecidableEq

/-- An HTTP response as the framework renders it: a JSON body validated
against `ThreadResponse` (the `return` path), or a raised `HTTPException`
rendered as status plus `{"detail": ...}` — which carries no structured
fields. -/
inductive Response : Type where
  | json (statusCode : Nat) (body : ThreadResponse)
  | httpError (statusCode : Nat) (detail : String)
  deriving DecidableEq

/-- Python exceptions the handler's `try` block can raise. -/
inductive PyExc : Type where
  | httpException (statusCode : Nat) (detail : String)
  | attributeError
  | keyError
  | retryError (lastError : String)
  | nameError (missing : String)
  deriving DecidableEq

example : extract_thread_id "" = none := by decide
example : extract_thread_id "abc123" = some "abc123" := by decide
example : extract_thread_id "  abc123  " = some "abc123" := by decide
example : extract_thread_id "   " = some "" := by decide
example : extract_thread_id "http://x.com/nothing" = none := by decide
example :
    extract_thread_id "https://www.threads.net/@u/post/Cz1_-a9?x=1" =
      some "Cz1_-a9" := by decide
example : extract_thread_id "https://t.co/post//post/abc" = some "abc" := by decide

/-! ## Fetch with retry -/

/-- The upstream world: for each target URL, the outcome of the `n`-th GET
attempt (0-indexed) — either a network/HTTP failure described by an error
string (`raise_for_status`, timeouts, connection errors; the text is logged
server-side only) or a successfully fetched body, given as its parse tree. -/
def Upstream : Type := String → Nat → Except String (List Element)

/-- tenacity's `wait_exponential(multiplier, min, max)` for `attempt_number`
sleeps (in whole seconds):
`max(max(0, min), min(multiplier * 2 ** attempt_number, max))`. -/
def wait_exponential (multiplier minWait maxWait attemptNumber : Nat) : Nat :=
  max (max 0 minWait) (min (multiplier * 2 ^ attemptNumber) maxWait)

/-- The wait schedule of `fetch_url`'s decorator
`wait_exponential(multiplier=1, min=4, max=10)` (`main.py` line 65). -/
def fetchWait (attemptNumber : Nat) : Nat :=
  wait_exponential 1 4 10 attemptNumber

/-- `fetch_url` under `retry(stop=stop_after_attempt(3), ...)`: try the GET;
on failure retry, for at most 3 attempts in total; if the third attempt also
fails the error propagates (tenacity raises `RetryError` around the last
exception). -/
def fetch_url (upstream : Upstream) (url : String) :
    Except String (List Element) :=
  match upstream url 0 with
  | .ok body => .ok body
  | .error _ =>
    match upstream url 1 with
    | .ok body => .ok body
    | .error _ => upstream url 2

/-- `THREADSTER_BASE_URL.format(thread_id=thread_id)` (`main.py` line 52). -/
def THREADSTER_BASE_URL (thread_id : String) : String :=
  "https://threadster.app/download/" ++ thread_id

/-! ## The /download handler -/

/-- The selector of the download-action anchor (`main.py` line 137). -/
def btnSelector : String := "btn download__item__info__actions__button"

/-- The list comprehension of `main.py` lines 135–138:
`[link["href"] for item in download_items if (link := item.find("a", class_=...))]`.
Items without a matching anchor are skipped; a found anchor without `href`
raises `KeyError`. -/
def collectDownloadUrls : List Element → Except PyExc (List String)
  | [] => .ok []
  | item :: rest =>
    match item.findFirst "a" (some btnSelector) with
    | none => collectDownloadUrls rest
    | some link =>
      match attrGet link "href" with
      | none => .error .keyError
      | some href => (collectDownloadUrls rest).map fun us => href :: us

/-- The unconditional structural reads on the first item
(`main.py` lines 130–133): avatar `src`, username text, caption text.  A
failed `find` yields `None`, so the chained call raises `AttributeError`; a
missing attribute raises `KeyError`.  Returned in the order
(avatar, username, caption). -/
def firstItemReads (firstItem : Element) :
    Except PyExc (String × String × String) :=
  match firstItem.findFirst "div" (some "download__item__profile_pic") with
  | none => .error .attributeError
  | some profilePic =>
    match profilePic.findFirst "img" none with
    | none => .error .attributeError
    | some img =>
      match attrGet img "src" with
      | none => .error .keyError
      | some avatar =>
        match profilePic.findFirst "span" none with
        | none => .error .attributeError
        | some span =>
          match firstItem.findFirst "div" (some "download__item__caption__text") with
          | none => .error .attributeError
          | some captionDiv =>
            .ok (avatar, span.getText, captionDiv.getText)

/-- The body of the `try:` block of `download_thread` (`main.py` lines
110–154).  `.error e` models an exception escaping the block — note that the
three `raise HTTPException(404, ...)` statements are *inside* the block, so
they surface here as `.error (.httpException 404 _)`. -/
def tryBlock (fetched : Except String (List Element)) : Except PyExc Response :=
  match fetched with
  | .error e => .error (.retryError e)
  | .ok soup =>
    match soupFind soup "div" (some "download__wrapper") with
    | none => .error (.httpException 404 "Content not found")
    | some wrapper =>
      match wrapper.findAll "div" (some "download_item") with
      | [] => .error (.httpException 404 "No downloadable content found")
      | firstItem :: restItems =>
        match firstItemReads firstItem with
        | .error e => .error e
        | .ok (avatar, username, caption) =>
          match collectDownloadUrls (firstItem :: restItems) with
          | .error e => .error e
          | .ok [] => .error (.httpException 404 "No download links available")
          | .ok (u :: us) =>
            .ok (.json 200
              { ok := true
                message := "Content retrieved successfully"
                avatar := some avatar
                caption := some caption
                url := some (u :: us)
                username := some username })

/-- `download_thread` (`main.py` lines 99–161).  Normalize the input; a falsy
thread id (`None` or `""`) raises `HTTPException(400, ...)` before the `try`
block.  Then the fetch–parse–shape pipeline runs inside
`try: ... except Exception:`, whose handler replaces *every* escaping
exception — the 404 `HTTPException`s included — with
`HTTPException(500, "Error processing your request")`. -/
def download_thread (url_or_id : String) (upstream : Upstream) : Response :=
  let thread_id := extract_thread_id url_or_id
  if threadIdTruthy thread_id then
    match tryBlock (fetch_url upstream
        (THREADSTER_BASE_URL ((thread_id).getD ""))) with
    | .ok resp => resp
    | .error _ => .httpError 500 "Error processing your request"
  else .httpError 400 "Invalid Threads URL or ID format"

/-! ## /health and the module's global namespace -/

/-- `settings.app_version` (`main.py` line 15). -/
def app_version : String := "1.1.0"

/-- The body of the `/health` answer. -/
structure HealthResponse where
  status : String
  version : String
  deriving DecidableEq

/-- `health_check` (`main.py` lines 163–165): returns
`{"status": "ok", "version": settings.app_version}` with HTTP 200.  It takes
the upstream world as a parameter only so that independence from it is
statable; its body never consults it (no outbound call). -/
def health_check (_upstream : Upstream) : Nat × HealthResponse :=
  (200, { status := "ok", version := app_version })

/-- The names bound at module level by the import block of `main.py`
(lines 1–10). -/
def moduleImportedNames : List String :=
  ["FastAPI", "HTTPException", "status", "Request", "CORSMiddleware", "httpx",
   "BeautifulSoup", "re", "logging", "retry", "stop_after_attempt",
   "wait_exponential", "BaseModel", "urlparse", "os"]

/-- The names bound by the module's own top-level statements. -/
def moduleTopLevelNames : List String :=
  ["Settings", "settings", "logger", "app", "TIMEOUT", "USER_AGENT",
   "THREADSTER_BASE_URL", "ID_PATTERN", "ThreadResponse", "fetch_url",
   "extract_thread_id", "global_exception_handler", "download_thread",
   "health_check", "get_application"]

/-- Every global name resolvable inside a function body of `main.py`. -/
def moduleGlobalNames : List String :=
  moduleImportedNames ++ moduleTopLevelNames

/-- The Python builtin names `main.py` relies on.  `JSONResponse` is a class
of `fastapi.responses` / `starlette.responses`, not a builtin, so no builtin
lookup can resolve it either. -/
def pythonBuiltinNames : List String :=
  ["float", "str", "list", "bool", "len", "print", "Exception"]

/-- Outcome of invoking an exception handler: it returns a response, or its
own body raises. -/
inductive HandlerOutcome : Type where
  | returned (r : Response)
  | raised (e : PyExc)
  deriving DecidableEq

/-- `global_exception_handler` (`main.py` lines 90–96).  After logging, the
body evaluates the name `JSONResponse` (Python resolves a function-body name
against module globals, then builtins) and calls it to build the intended
`{"ok": False, "message": "Internal server error"}` 500 response; if the
lookup fails, the evaluation itself raises `NameError`. -/
def global_exception_handler (_exc : String) : HandlerOutcome :=
  if moduleGlobalNames.contains "JSONResponse"
      || pythonBuiltinNames.contains "JSONResponse" then
    .returned (.json 500 { ok := false, message := "Internal server error" })
  else .raised (.nameError "JSONResponse")

/-! ## Concrete fixture documents -/

/-- A profile-pic block: `<div class="download__item__profile_pic"><img
src=...><span>user_one</span></div>`. -/
def profilePicDiv : Element :=
  .mk "div" ["download__item__profile_pic"] [] ""
    [.mk "img" [] [("src", "https://cdn.example/avatar.jpg")] "" [],
     .mk "span" [] [] "user_one" []]

/-- A caption block. -/
def captionDiv : Element :=
  .mk "div" ["download__item__caption__text"] [] "a caption" []

/-- A download-action anchor with the recognized class signature. -/
def anchorEl (href : String) : Element :=
  .mk "a" ["btn", "download__item__info__actions__button"] [("href", href)]
    "Download" []

/-- A complete download item carrying an anchor for `href`. -/
def itemWith (href : String) : Element :=
  .mk "div" ["download_item"] [] "" [profilePicDiv, captionDiv, anchorEl href]

/-- A download item with the profile/caption structure but no download-action
anchor. -/
def itemNoAnchor : Element :=
  .mk "div" ["download_item"] [] "" [profilePicDiv, captionDiv]

/-- The download wrapper around the given items. -/
def wrapperWith (items : List Element) : Element :=
  .mk "div" ["download__wrapper"] [] "" items

/-- A well-formed page with two items, each with an anchor. -/
def docTwoItems : List Element :=
  [.mk "html" [] [] "" [.mk "body" [] [] ""
    [wrapperWith [itemWith "https://cdn.example/v1.mp4",
                  itemWith "https://cdn.example/v2.mp4"]]]]

/-- A page with no download-wrapper container at all. -/
def docNoWrapper : List Element :=
  [.mk "html" [] [] "" [.mk "body" [] [] "" []]]

/-- A page whose wrapper and item are present but carry no download-action
anchor. -/
def docNoLinks : List Element :=
  [.mk "html" [] [] "" [.mk "body" [] [] "" [wrapperWith [itemNoAnchor]]]]

/-- An upstream that succeeds on every attempt with the given page. -/
def upstreamOk (doc : List Element) : Upstream := fun _ _ => .ok doc

/-- An upstream on which every attempt fails. -/
def upstreamDown : Upstream := fun _ _ => .error "connection refused"

example :
    download_thread "abc123" (upstreamOk docTwoItems) =
      .json 200
        { ok := true
          message := "Content retrieved successfully"
          avatar := some "https://cdn.example/avatar.jpg"
          caption := some "a caption"
          url := some ["https://cdn.example/v1.mp4", "https://cdn.example/v2.mp4"]
          username := some "user_one" } := by decide

example :
    download_thread "abc123" (upstreamOk docNoWrapper) =
      .httpError 500 "Error processing your request" := by decide

example :
    download_thread "abc123" (upstreamOk docNoLinks) =
      .httpError 500 "Error processing your request" := by decide

example :
    download_thread "abc123" upstreamDown =
      .httpError 500 "Error processing your request" := by decide

example :
    download_thread "   " upstreamDown =
      .httpError 400 "Invalid Threads URL or ID format" := by decide

/-- An upstream that behaves like `upstreamDown` on the first three attempts
but would succeed from the fourth on — the retry policy never reaches it. -/
def upstreamDownAlt : Upstream :=
  fun _ n => if n ≤ 2 then .error "connection refused" else .ok []

/-- The spec's MediaResult invariant (§3): a success body has `ok = true` and
a non-empty `url` sequence; a failure response carries no structured fields
(the `Response.httpError` constructor has none) and a non-empty explanatory
message. -/
def mediaResultInvariant : Response → Prop
  | .json _ b => b.ok = true ∧ ∃ us, b.url = some us ∧ us ≠ []
  | .httpError _ d => d ≠ ""

/-! ## Helper lemmas -/

theorem head?_dropWhile_false {p : Char → Bool} {l : List Char} {a : Char}
    (h : (l.dropWhile p).head? = some a) : p a = false := by
  induction l with
  | nil => simp [List.dropWhile] at h
  | cons c cs ih =>
    rw [List.dropWhile_cons] at h
    split at h
    · exact ih h
    · next hc =>
      simp at h
      subst h
      simpa using hc

theorem takeWhile_append_all {p : Char → Bool} (tok rest : List Char)
    (hall : ∀ c ∈ tok, p c = true)
    (hstop : ∀ c, rest.head? = some c → p c = false) :
    (tok ++ rest).takeWhile p = tok := by
  induction tok with
  | nil =>
    cases rest with
    | nil => rfl
    | cons d ds => simp [List.takeWhile_cons, hstop d rfl]
  | cons c cs ih =>
    have hc := hall c (by simp)
    simp only [List.cons_append, List.takeWhile_cons, hc, if_true]
    rw [ih fun x hx => hall x (by simp [hx])]

theorem idPatternSearch_ne_nil {s t : List Char}
    (h : idPatternSearch s = some t) : t ≠ [] := by
  induction s with
  | nil => simp [idPatternSearch] at h
  | cons c cs ih =>
    rw [idPatternSearch] at h
    split at h
    · next hm =>
      injection h with h
      subst h
      have h2 := ((Bool.and_eq_true _ _).mp hm).2
      cases hd : (c :: cs).drop 6 with
      | nil => rw [hd] at h2; simp [isIdChar] at h2
      | cons d ds =>
        rw [hd] at h2
        simp only [List.headD_cons] at h2
        simp [hd, List.takeWhile_cons, h2]
    · exact ih h

theorem idPatternSearch_cons_pos {c : Char} {cs : List Char}
    (h : postMatchHere (c :: cs) = true) :
    idPatternSearch (c :: cs) = some (((c :: cs).drop 6).takeWhile isIdChar) := by
  rw [idPatternSearch, if_pos h]

theorem idPatternSearch_cons_neg {c : Char} {cs : List Char}
    (h : postMatchHere (c :: cs) = false) :
    idPatternSearch (c :: cs) = idPatternSearch cs := by
  rw [idPatternSearch, if_neg (by simp [h])]

theorem postMatchHere_at_post (tok rest : List Char) (htok : tok ≠ [])
    (hchars : ∀ c ∈ tok, isIdChar c = true) :
    postMatchHere ("/post/".toList ++ (tok ++ rest)) = true := by
  unfold postMatchHere
  rw [Bool.and_eq_true]
  constructor
  · rw [List.isPrefixOf_iff_prefix]
    exact List.prefix_append _ _
  · have hd : ("/post/".toList ++ (tok ++ rest)).drop 6 = tok ++ rest := by
      have : ("/post/".toList).length = 6 := by decide
      rw [← this, List.drop_left]
    rw [hd]
    cases tok with
    | nil => exact absurd rfl htok
    | cons t ts => exact hchars t (by simp)

theorem idPatternSearch_decomp (pre tok rest : List Char)
    (htok : tok ≠ [])
    (hchars : ∀ c ∈ tok, isIdChar c = true)
    (hmax : ∀ c, rest.head? = some c → isIdChar c = false)
    (hfirst : ∀ i, i < pre.length →
        postMatchHere ((pre ++ ("/post/".toList ++ (tok ++ rest))).drop i) = false) :
    idPatternSearch (pre ++ ("/post/".toList ++ (tok ++ rest))) = some tok := by
  induction pre with
  | nil =>
    rw [List.nil_append]
    have hm := postMatchHere_at_post tok rest htok hchars
    have hcons : "/post/".toList ++ (tok ++ rest) =
        '/' :: ("post/".toList ++ (tok ++ rest)) := rfl
    rw [hcons] at hm ⊢
    rw [idPatternSearch_cons_pos hm, ← hcons]
    have hd : ("/post/".toList ++ (tok ++ rest)).drop 6 = tok ++ rest := by
      have : ("/post/".toList).length = 6 := by decide
      rw [← this, List.drop_left]
    rw [hd, takeWhile_append_all tok rest hchars hmax]
  | cons c pre' ih =>
    have h0 := hfirst 0 (by simp)
    rw [List.drop_zero, List.cons_append] at h0
    rw [List.cons_append, idPatternSearch_cons_neg h0]
    exact ih fun i hi => by
      have := hfirst (i + 1) (by simpa using Nat.succ_lt_succ hi)
      rwa [List.cons_append, List.drop_succ_cons] at this

theorem collectDownloadUrls_all_anchors {items : List Element}
    {hrefs : List String}
    (h : List.Forall₂ (fun item href => ∃ link,
        item.findFirst "a" (some btnSelector) = some link ∧
        attrGet link "href" = some href) items hrefs) :
    collectDownloadUrls items = .ok hrefs := by
  induction h with
  | nil => rfl
  | cons hd _ ih =>
    obtain ⟨link, hl, hh⟩ := hd
    simp [collectDownloadUrls, hl, hh, ih, Except.map]

theorem tryBlock_ok_shape {fetched : Except String (List Element)}
    {r : Response} (h : tryBlock fetched = .ok r) :
    ∃ a c un u us, r = .json 200
      { ok := true
        message := "Content retrieved successfully"
        avatar := some a
        caption := some c
        url := some (u :: us)
        username := some un } := by
  unfold tryBlock at h
  repeat' split at h
  all_goals first
    | exact Except.noConfusion h
    | (injection h with h; exact ⟨_, _, _, _, _, h.symm⟩)

theorem string_mk_eq_empty_iff (l : List Char) : String.mk l = "" ↔ l = [] :=
  ⟨fun h => congrArg String.data h, fun h => by subst h; rfl⟩

theorem threadIdTruthy_false_iff (s : String) :
    threadIdTruthy (extract_thread_id s) = false ↔
      (s = "" ∨ (urlPrefixed s.toList = true ∧ idPatternSearch s.toList = none) ∨
       (urlPrefixed s.toList = false ∧ pyStrip s.toList = [])) := by
  by_cases hs : s = ""
  · simp [hs, extract_thread_id, threadIdTruthy]
  · by_cases hu : urlPrefixed s.toList = true
    · cases hsearch : idPatternSearch s.toList with
      | none =>
        unfold extract_thread_id
        rw [if_neg hs, if_pos hu, hsearch]
        simp only [Option.map_none']
        apply iff_of_true
        · rfl
        · exact Or.inr (Or.inl ⟨hu, trivial⟩)
      | some t =>
        have hne := idPatternSearch_ne_nil hsearch
        unfold extract_thread_id
        rw [if_neg hs, if_pos hu]
        rw [hsearch]
        simp only [Option.map_some']
        apply iff_of_false
        · simp [threadIdTruthy, string_mk_eq_empty_iff, hne]
        · rintro (h | ⟨_, h⟩ | ⟨h, _⟩)
          · exact hs h
          · exact Option.noConfusion h
          · rw [hu] at h; exact Bool.noConfusion h
    · have hu' : urlPrefixed s.toList = false := eq_false_of_ne_true hu
      unfold extract_thread_id
      rw [if_neg hs, if_neg hu]
      constructor
      · intro h
        refine Or.inr (Or.inr ⟨hu', ?_⟩)
        have h3 : String.mk (pyStrip s.toList) = "" :=
          not_not.mp (of_decide_eq_false h)
        exact (string_mk_eq_empty_iff _).mp h3
      · rintro (h | ⟨h, _⟩ | ⟨_, h⟩)
        · exact absurd h hs
        · rw [hu'] at h; exact Bool.noConfusion h
        · rw [h]; decide

theorem fetch_url_all_fail (upstream : Upstream) (url : String)
    (h : ∀ n, ∃ e, upstream url n = .error e) :
    ∃ e, fetch_url upstream url = .error e := by
  obtain ⟨e0, h0⟩ := h 0
  obtain ⟨e1, h1⟩ := h 1
  obtain ⟨e2, h2⟩ := h 2
  exact ⟨e2, by simp [fetch_url, h0, h1, h2]⟩

theorem download_thread_eval (s : String) (upstream : Upstream) (tid : String)
    (hid : extract_thread_id s = some tid) (htid : tid ≠ "") :
    download_thread s upstream =
      match tryBlock (fetch_url upstream (THREADSTER_BASE_URL tid)) with
      | .ok r => r
      | .error _ => .httpError 500 "Error processing your request" := by
  simp only [download_thread, hid, Option.getD_some]
  rw [if_pos (by simp [threadIdTruthy, htid])]

theorem download_thread_truthy_cases (s : String) (upstream : Upstream)
    (ht : threadIdTruthy (extract_thread_id s) = true) :
    (∃ a c un u us, download_thread s upstream = .json 200
      { ok := true
        message := "Content retrieved successfully"
        avatar := some a
        caption := some c
        url := some (u :: us)
        username := some un }) ∨
    download_thread s upstream =
      .httpError 500 "Error processing your request" := by
  cases hid : extract_thread_id s with
  | none => rw [hid] at ht; exact Bool.noConfusion ht
  | some tid =>
    have htid : tid ≠ "" := by
      rw [hid] at ht
      exact of_decide_eq_true ht
    rw [download_thread_eval s upstream tid hid htid]
    cases htb : tryBlock (fetch_url upstream (THREADSTER_BASE_URL tid)) with
    | ok r =>
      obtain ⟨a, c, un, u, us, rfl⟩ := tryBlock_ok_shape htb
      exact Or.inl ⟨a, c, un, u, us, rfl⟩
    | error e => exact Or.inr rfl

theorem tryBlock_success (soup : List Element) (wrapper firstItem : Element)
    (restItems : List Element) (avatar username caption : String)
    (u : String) (us : List String)
    (hw : soupFind soup "div" (some "download__wrapper") = some wrapper)
    (hitems : wrapper.findAll "div" (some "download_item") =
      firstItem :: restItems)
    (hreads : firstItemReads firstItem = .ok (avatar, username, caption))
    (hurls : collectDownloadUrls (firstItem :: restItems) = .ok (u :: us)) :
    tryBlock (.ok soup) = .ok (.json 200
      { ok := true
        message := "Content retrieved successfully"
        avatar := some avatar
        caption := some caption
        url := some (u :: us)
        username := some username }) := by
  simp only [tryBlock, hw, hitems, hreads, hurls]

/-! ## Claim theorems -/

/-- C1: the claim says a missing download wrapper, or wrapper and items
without any download-action anchor, yields HTTP 404 with the specific reason.
The `try` block does raise exactly those `HTTPException(404, ...)`s, but the
enclosing `except Exception` (`main.py` line 156) catches them and re-raises
`HTTPException(500)`, so the handler actually responds HTTP 500 with the
generic message in both situations — never 404. -/
theorem download_404_swallowed_to_500 :
    tryBlock (.ok docNoWrapper) =
      .error (.httpException 404 "Content not found") ∧
    tryBlock (.ok docNoLinks) =
      .error (.httpException 404 "No download links available") ∧
    download_thread "abc123" (upstreamOk docNoWrapper) =
      .httpError 500 "Error processing your request" ∧
    download_thread "abc123" (upstreamOk docNoLinks) =
      .httpError 500 "Error processing your request" :=
  ⟨rfl, rfl, by decide, by decide⟩

/-- C2 (counterexample): the whitespace-only input `"   "` is neither empty
nor URL-prefixed, yet normalization yields the empty string — not a usable
identifier — and the handler answers HTTP 400, contradicting the claim's
"exactly these inputs". -/
theorem invalid_input_set_counterexample :
    ("   " : String) ≠ "" ∧
    urlPrefixed ("   " : String).toList = false ∧
    extract_thread_id "   " = some "" ∧
    download_thread "   " (upstreamOk docTwoItems) =
      .httpError 400 "Invalid Threads URL or ID format" :=
  ⟨by decide, by decide, by decide, by decide⟩

/-- C2 (amended): normalization returns `None` exactly for the empty input
and for URL-prefixed inputs without a `/post/<token>` match; the handler
answers HTTP 400 exactly for those inputs plus the non-URL inputs that strip
to the empty string (whitespace-only), for which normalization yields the
empty string; all other inputs proceed past validation. -/
theorem invalid_input_characterization :
    ∀ (s : String) (upstream : Upstream),
      (extract_thread_id s = none ↔
        (s = "" ∨
         (urlPrefixed s.toList = true ∧ idPatternSearch s.toList = none))) ∧
      (download_thread s upstream =
          .httpError 400 "Invalid Threads URL or ID format" ↔
        (s = "" ∨
         (urlPrefixed s.toList = true ∧ idPatternSearch s.toList = none) ∨
         (urlPrefixed s.toList = false ∧ pyStrip s.toList = []))) := by
  intro s upstream
  constructor
  · by_cases hs : s = ""
    · simp [hs, extract_thread_id]
    · unfold extract_thread_id
      rw [if_neg hs]
      by_cases hu : urlPrefixed s.toList = true
      · rw [if_pos hu]
        simp [hu, hs, Option.map_eq_none']
        exact fun _ => hu
      · rw [if_neg hu]
        have hu' := eq_false_of_ne_true hu
        constructor
        · intro h; exact Option.noConfusion h
        · rintro (h | ⟨h, _⟩)
          · exact absurd h hs
          · rw [hu'] at h; exact Bool.noConfusion h
  · rw [← threadIdTruthy_false_iff s]
    cases ht : threadIdTruthy (extract_thread_id s) with
    | false =>
      apply iff_of_true ?_ rfl
      simp only [download_thread]
      rw [if_neg (by simp [ht])]
    | true =>
      apply iff_of_false ?_ (by simp)
      rcases download_thread_truthy_cases s upstream ht with
        ⟨a, c, un, u, us, hb⟩ | hb
      · rw [hb]; intro h; exact Response.noConfusion h
      · rw [hb]; intro h
        injection h with h1 h2
        exact absurd h1 (by decide)

/-- C3: for a URL-prefixed input containing a `/post/<token>` occurrence —
`tok` a non-empty run of `[A-Za-z0-9_-]` characters, maximal (the following
character, if any, is outside the class), at the leftmost position where the
pattern matches — normalization returns exactly that token. -/
theorem url_post_token_extracted :
    ∀ (s : String) (pre tok rest : List Char),
      urlPrefixed s.toList = true →
      s.toList = pre ++ ("/post/".toList ++ (tok ++ rest)) →
      tok ≠ [] →
      (∀ c ∈ tok, isIdChar c = true) →
      (∀ c, rest.head? = some c → isIdChar c = false) →
      (∀ i, i < pre.length → postMatchHere (s.toList.drop i) = false) →
      extract_thread_id s = some (String.mk tok) := by
  intro s pre tok rest hu hdec htok hchars hmax hfirst
  have hs : s ≠ "" := by
    intro h
    rw [h] at hdec
    have h6 := congrArg List.length hdec
    have hp : ("/post/".toList).length = 6 := rfl
    simp [List.length_append, hp] at h6
    omega
  unfold extract_thread_id
  rw [if_neg hs, if_pos hu, hdec]
  rw [idPatternSearch_decomp pre tok rest htok hchars hmax
    (fun i hi => by rw [← hdec]; exact hfirst i hi)]
  rfl

/-- C3 witness at a concrete post URL. -/
theorem url_post_token_extracted_witness :
    extract_thread_id "https://www.threads.net/@user/post/Cz1_-a9?x=1" =
      some (String.mk "Cz1_-a9".toList) :=
  url_post_token_extracted _ "https://www.threads.net/@user".toList
    "Cz1_-a9".toList "?x=1".toList (by decide) (by decide) (by decide)
    (by decide) (fun c h => by cases h; decide) (by decide)

/-- C4: a non-empty input without the URL scheme prefix normalizes to the
input with leading and trailing whitespace removed and nothing else: the
result is the middle of a decomposition `pre ++ result ++ post` of the input
where `pre`/`post` are whitespace-only and the result neither starts nor ends
with whitespace; no further validation happens. -/
theorem non_url_input_trimmed :
    ∀ s : String, s ≠ "" → urlPrefixed s.toList = false →
      extract_thread_id s = some (String.mk (pyStrip s.toList)) ∧
      ∃ pre post : List Char,
        s.toList = pre ++ pyStrip s.toList ++ post ∧
        (∀ c ∈ pre, isPyWs c = true) ∧
        (∀ c ∈ post, isPyWs c = true) ∧
        (∀ c, (pyStrip s.toList).head? = some c → isPyWs c = false) ∧
        (∀ c, (pyStrip s.toList).getLast? = some c → isPyWs c = false) := by
  intro s hs hu
  constructor
  · unfold extract_thread_id
    rw [if_neg hs,
      if_neg (fun h => by rw [h] at hu; exact Bool.noConfusion hu)]
  · refine ⟨s.toList.takeWhile isPyWs,
      ((s.toList.dropWhile isPyWs).reverse.takeWhile isPyWs).reverse,
      ?_, ?_, ?_, ?_, ?_⟩
    · have hmid : s.toList.takeWhile isPyWs ++ s.toList.dropWhile isPyWs =
          s.toList := List.takeWhile_append_dropWhile _ _
      have hrev : (s.toList.dropWhile isPyWs).reverse.takeWhile isPyWs ++
          (s.toList.dropWhile isPyWs).reverse.dropWhile isPyWs =
          (s.toList.dropWhile isPyWs).reverse :=
        List.takeWhile_append_dropWhile _ _
      have hmid2 : s.toList.dropWhile isPyWs =
          pyStrip s.toList ++
            ((s.toList.dropWhile isPyWs).reverse.takeWhile isPyWs).reverse := by
        have h2 := congrArg List.reverse hrev
        rw [List.reverse_append, List.reverse_reverse] at h2
        exact h2.symm
      conv_lhs => rw [← hmid, hmid2]
      rw [List.append_assoc]
    · exact fun c hc => List.mem_takeWhile_imp hc
    · exact fun c hc => List.mem_takeWhile_imp (List.mem_reverse.mp hc)
    · intro c hc
      have hne : pyStrip s.toList ≠ [] := by
        intro h0; rw [h0] at hc; exact Option.noConfusion hc
      have hrev : (s.toList.dropWhile isPyWs).reverse.takeWhile isPyWs ++
          (s.toList.dropWhile isPyWs).reverse.dropWhile isPyWs =
          (s.toList.dropWhile isPyWs).reverse :=
        List.takeWhile_append_dropWhile _ _
      have hmid2 : s.toList.dropWhile isPyWs =
          pyStrip s.toList ++
            ((s.toList.dropWhile isPyWs).reverse.takeWhile isPyWs).reverse := by
        have h2 := congrArg List.reverse hrev
        rw [List.reverse_append, List.reverse_reverse] at h2
        exact h2.symm
      have hh : (s.toList.dropWhile isPyWs).head? = some c := by
        rw [hmid2, List.head?_append_of_ne_nil _ hne]
        exact hc
      exact head?_dropWhile_false hh
    · intro c hc
      have hh : ((s.toList.dropWhile isPyWs).reverse.dropWhile isPyWs).head? =
          some c := by
        rw [show (s.toList.dropWhile isPyWs).reverse.dropWhile isPyWs =
              (pyStrip s.toList).reverse by simp [pyStrip]]
        rw [List.head?_reverse]
        exact hc
      exact head?_dropWhile_false hh

/-- C4 witness at the input `"  abc123  "`. -/
theorem non_url_input_trimmed_witness :
    extract_thread_id "  abc123  " =
      some (String.mk (pyStrip "  abc123  ".toList)) ∧
    ∃ pre post : List Char,
      "  abc123  ".toList = pre ++ pyStrip "  abc123  ".toList ++ post ∧
      (∀ c ∈ pre, isPyWs c = true) ∧
      (∀ c ∈ post, isPyWs c = true) ∧
      (∀ c, (pyStrip "  abc123  ".toList).head? = some c →
        isPyWs c = false) ∧
      (∀ c, (pyStrip "  abc123  ".toList).getLast? = some c →
        isPyWs c = false) :=
  non_url_input_trimmed "  abc123  " (by decide) (by decide)

/-- C5: for a fetched page whose download wrapper holds items (the first of
which has the avatar/username/caption structure) such that every item carries
a download-action anchor with an `href`, the handler returns HTTP 200 whose
`url` lists exactly one entry per item, in document order (`List.Forall₂`
pairs the items with the entries positionally), with `avatar`, `caption` and
`username` taken from the reads on the first item only. -/
theorem well_formed_page_200 :
    ∀ (s tid : String) (upstream : Upstream) (soup : List Element)
      (wrapper firstItem : Element) (restItems : List Element)
      (hrefs : List String) (avatar username caption : String),
      extract_thread_id s = some tid →
      tid ≠ "" →
      fetch_url upstream (THREADSTER_BASE_URL tid) = .ok soup →
      soupFind soup "div" (some "download__wrapper") = some wrapper →
      wrapper.findAll "div" (some "download_item") = firstItem :: restItems →
      firstItemReads firstItem = .ok (avatar, username, caption) →
      List.Forall₂ (fun item href => ∃ link,
          item.findFirst "a" (some btnSelector) = some link ∧
          attrGet link "href" = some href) (firstItem :: restItems) hrefs →
      download_thread s upstream = .json 200
        { ok := true
          message := "Content retrieved successfully"
          avatar := some avatar
          caption := some caption
          url := some hrefs
          username := some username } ∧
      hrefs.length = restItems.length + 1 := by
  intro s tid upstream soup wrapper firstItem restItems hrefs avatar username
    caption hid htid hfetch hw hitems hreads hanch
  have hlen : hrefs.length = restItems.length + 1 := by
    simpa using hanch.length_eq.symm
  refine ⟨?_, hlen⟩
  obtain ⟨u, us, rfl⟩ : ∃ u us, hrefs = u :: us := by
    cases hrefs with
    | nil => simp at hlen
    | cons a l => exact ⟨a, l, rfl⟩
  have hurls := collectDownloadUrls_all_anchors hanch
  rw [download_thread_eval s upstream tid hid htid, hfetch,
    tryBlock_success soup wrapper firstItem restItems avatar username caption
      u us hw hitems hreads hurls]

/-- C5 witness on a concrete two-item page. -/
theorem well_formed_page_200_witness :
    download_thread "abc123" (upstreamOk docTwoItems) = .json 200
      { ok := true
        message := "Content retrieved successfully"
        avatar := some "https://cdn.example/avatar.jpg"
        caption := some "a caption"
        url := some ["https://cdn.example/v1.mp4", "https://cdn.example/v2.mp4"]
        username := some "user_one" } ∧
    (["https://cdn.example/v1.mp4", "https://cdn.example/v2.mp4"] :
      List String).length =
      ([itemWith "https://cdn.example/v2.mp4"] : List Element).length + 1 :=
  well_formed_page_200 "abc123" "abc123" (upstreamOk docTwoItems) docTwoItems
    (wrapperWith [itemWith "https://cdn.example/v1.mp4",
                  itemWith "https://cdn.example/v2.mp4"])
    (itemWith "https://cdn.example/v1.mp4")
    [itemWith "https://cdn.example/v2.mp4"]
    ["https://cdn.example/v1.mp4", "https://cdn.example/v2.mp4"]
    "https://cdn.example/avatar.jpg" "user_one" "a caption"
    (by decide) (by decide) rfl rfl rfl rfl
    (List.Forall₂.cons ⟨anchorEl "https://cdn.example/v1.mp4", rfl, rfl⟩
      (List.Forall₂.cons ⟨anchorEl "https://cdn.example/v2.mp4", rfl, rfl⟩
        List.Forall₂.nil))

/-- C6: the fetch's result depends only on the first three attempt outcomes
(at most 3 attempts); the wait before retry `n` is the tenacity exponential
`max(4, min(1 * 2^n, 10))`, so every wait is at least 4 and at most 10
seconds; and when every attempt fails the handler answers HTTP 500 with the
fixed generic message, whatever the upstream error texts were — so the
specific upstream error never reaches the response body. -/
theorem fetch_retry_policy :
    (∀ (u v : Upstream) (url : String),
        u url 0 = v url 0 → u url 1 = v url 1 → u url 2 = v url 2 →
        fetch_url u url = fetch_url v url) ∧
    (∀ n : Nat, fetchWait n = max 4 (min (2 ^ n) 10)) ∧
    (∀ n : Nat, 4 ≤ fetchWait n ∧ fetchWait n ≤ 10) ∧
    (∀ (s : String) (upstream : Upstream),
        threadIdTruthy (extract_thread_id s) = true →
        (∀ url n, ∃ e, upstream url n = .error e) →
        download_thread s upstream =
          .httpError 500 "Error processing your request") := by
  have hform : ∀ n : Nat, fetchWait n = max 4 (min (2 ^ n) 10) := by
    intro n
    simp [fetchWait, wait_exponential, Nat.one_mul]
  refine ⟨?_, hform, ?_, ?_⟩
  · intro u v url h0 h1 h2
    unfold fetch_url
    rw [h0, h1, h2]
  · intro n
    rw [hform n]
    exact ⟨Nat.le_max_left _ _,
      Nat.max_le.mpr ⟨by norm_num, Nat.min_le_right _ _⟩⟩
  · intro s upstream ht hfail
    cases hid : extract_thread_id s with
    | none => rw [hid] at ht; exact Bool.noConfusion ht
    | some tid =>
      have htid : tid ≠ "" := by
        rw [hid] at ht
        exact of_decide_eq_true ht
      obtain ⟨e, hf⟩ :=
        fetch_url_all_fail upstream (THREADSTER_BASE_URL tid)
          (hfail (THREADSTER_BASE_URL tid))
      rw [download_thread_eval s upstream tid hid htid, hf]
      rfl

/-- C6 witness: concrete instantiations discharging each hypothesis. -/
theorem fetch_retry_policy_witness :
    fetch_url upstreamDown "url" = fetch_url upstreamDownAlt "url" ∧
    fetchWait 1 = max 4 (min (2 ^ 1) 10) ∧
    (4 ≤ fetchWait 2 ∧ fetchWait 2 ≤ 10) ∧
    download_thread "abc123" upstreamDown =
      .httpError 500 "Error processing your request" :=
  ⟨fetch_retry_policy.1 upstreamDown upstreamDownAlt "url" rfl rfl rfl,
   fetch_retry_policy.2.1 1,
   fetch_retry_policy.2.2.1 2,
   fetch_retry_policy.2.2.2 "abc123" upstreamDown (by decide)
     (fun _ _ => ⟨"connection refused", rfl⟩)⟩

/-- C7: every `/download` response satisfies the MediaResult invariant: a
success body has `ok = true` and a non-empty `url` list; a failure is an
`HTTPException` rendering, which carries no structured fields, with a
non-empty explanatory message. -/
theorem download_response_invariant :
    ∀ (url_or_id : String) (upstream : Upstream),
      mediaResultInvariant (download_thread url_or_id upstream) := by
  intro s upstream
  cases ht : threadIdTruthy (extract_thread_id s) with
  | false =>
    have h400 : download_thread s upstream =
        .httpError 400 "Invalid Threads URL or ID format" := by
      simp only [download_thread]
      rw [if_neg (by simp [ht])]
    rw [h400]
    show "Invalid Threads URL or ID format" ≠ ""
    decide
  | true =>
    rcases download_thread_truthy_cases s upstream ht with
      ⟨a, c, un, u, us, hb⟩ | hb
    · rw [hb]
      exact ⟨rfl, u :: us, rfl, by simp⟩
    · rw [hb]
      show "Error processing your request" ≠ ""
      decide

/-- C8: `/health` answers HTTP 200 with the fixed status token `"ok"` and
the service version `"1.1.0"`; the answer is the same whatever the upstream
world — it performs no outbound call. -/
theorem health_check_constant :
    ∀ u v : Upstream,
      health_check u = (200, { status := "ok", version := "1.1.0" }) ∧
      health_check u = health_check v :=
  fun _ _ => ⟨rfl, rfl⟩

/-- C9: any non-empty, non-URL input made only of whitespace characters
strips to the empty string, which the handler's truthiness test rejects
exactly like an absent identifier: HTTP 400. -/
theorem whitespace_only_input_400 :
    ∀ (s : String) (upstream : Upstream),
      s ≠ "" →
      (∀ c ∈ s.toList, isPyWs c = true) →
      urlPrefixed s.toList = false →
      extract_thread_id s = some "" ∧
      download_thread s upstream =
        .httpError 400 "Invalid Threads URL or ID format" := by
  intro s upstream hs hws hu
  have hstrip : pyStrip s.toList = [] := by
    have h1 : s.toList.dropWhile isPyWs = [] :=
      List.dropWhile_eq_nil_iff.mpr hws
    unfold pyStrip
    rw [h1]
    rfl
  have hex : extract_thread_id s = some "" := by
    unfold extract_thread_id
    rw [if_neg hs,
      if_neg (fun h => by rw [h] at hu; exact Bool.noConfusion hu), hstrip]
  refine ⟨hex, ?_⟩
  simp only [download_thread]
  rw [if_neg (by rw [hex]; decide)]

/-- C9 witness at the input `"   "`. -/
theorem whitespace_only_input_400_witness :
    extract_thread_id "   " = some "" ∧
    download_thread "   " upstreamDown =
      .httpError 400 "Invalid Threads URL or ID format" :=
  whitespace_only_input_400 "   " upstreamDown (by decide) (by decide)
    (by decide)

/-- C10: the module's import block never binds `JSONResponse` and it is not
a Python builtin, so evaluating the global exception handler's body raises
`NameError` for every exception; the intended
`{"ok": false, "message": "Internal server error"}` body is never
produced. -/
theorem global_exception_handler_name_error :
    ∀ exc : String,
      moduleGlobalNames.contains "JSONResponse" = false ∧
      global_exception_handler exc = .raised (.nameError "JSONResponse") ∧
      ∀ r : Response, global_exception_handler exc ≠ .returned r :=
  fun exc =>
    ⟨by decide, rfl, fun r h => HandlerOutcome.noConfusion h⟩
